import Mathlib

/-!
Shallow embedding of the power-strap synthesis engine of
`src/hammer/vlsi/hammer_vlsi_impl.py` (the `by_tracks` power strap
generation method), together with theorems settling the frozen claims.

Conventions:
- Python `Decimal` values are modelled as `ℚ`, Python `int` as `ℤ`.
- Python `int(x)` on a Decimal truncates toward zero: `ratTrunc`.
- Python `Decimal.__mod__` is a truncated remainder whose sign follows the
  dividend: `decMod`.
- Python `round` rounds half to even: `pyRound`.
- Fallible code (assertions, exceptions, out-of-range indexing) is modelled
  with `Option`/`Except`.
- The per-layer width/spacing solvers (`get_width_spacing_start_twt`,
  `get_width_spacing_start_twwt`, `min_spacing_and_max_width_from_pitch`)
  belong to the external stackup provider; they appear as function-valued
  fields of `Metal`, exactly as the engine consumes them.
-/

/-- Truncation toward zero, the behaviour of Python `int()` on a `Decimal`. -/
def ratTrunc (q : ℚ) : ℤ :=
  if 0 ≤ q then ⌊q⌋ else ⌈q⌉

/-- Truncated remainder with the dividend's sign, the behaviour of
`Decimal.__mod__` in Python. -/
def decMod (a b : ℚ) : ℚ :=
  a - b * (ratTrunc (a / b) : ℚ)

/-- Round half to even, the behaviour of Python `round` on the exact value. -/
def pyRound (q : ℚ) : ℤ :=
  let f := ⌊q⌋
  if q - (f : ℚ) < 1/2 then f
  else if q - (f : ℚ) > 1/2 then f + 1
  else if f % 2 = 0 then f else f + 1

/-- A metal layer of the stackup, as consumed by the engine: name, stacking
index, routing direction (the strings `"vertical"`, `"horizontal"`,
`"redistribution"`), pitch/offset/min-width geometry, the grid unit, and the
three width/spacing solvers.  `twt`/`twwt` map a track-width count to
`(width, spacing, start)`; `min_spacing_and_max_width_from_pitch` maps a pitch
to `(spacing, width)` — note the order, which is the order the Python call
site destructures. -/
structure Metal where
  name : String
  index : ℤ
  direction : String
  pitch : ℚ
  offset : ℚ
  min_width : ℚ
  grid_unit : ℚ
  twt : ℤ → ℚ × ℚ × ℚ
  twwt : ℤ → ℚ × ℚ × ℚ
  min_spacing_and_max_width_from_pitch : ℚ → ℚ × ℚ

/-- The geometric outcome of `specify_power_straps_by_tracks` for one group:
the resolved width/spacing/offset/pitch, the density figure, whether the
density warning is logged, and whether the two positivity assertions pass. -/
structure StrapGeometry where
  width : ℚ
  spacing : ℚ
  offset : ℚ
  pitch : ℚ
  density : ℚ
  densityWarn : Bool
  assertOk : Bool
  deriving Repr

/-- Embedding of the geometry computation of `specify_power_straps_by_tracks`
(`hammer_vlsi_impl.py` lines 718-747): pitch from the track pitch, the forced
unit track spacing under the `mesh` pattern, the three solver branches, the
`mesh` spacing override, the offset, the positivity assertions and the
density check. -/
def specify_power_straps_by_tracks (layer : Metal) (track_pitch track_width
    track_spacing track_start : ℤ) (track_offset : ℚ) (nets : List String)
    (layer_is_all_power : Bool) (pattern : String) : StrapGeometry :=
  let pitch : ℚ := (track_pitch : ℚ) * layer.pitch
  -- `if pattern == 'mesh': track_spacing = 1  # just for sizing`
  let track_spacing : ℤ := if pattern = "mesh" then 1 else track_spacing
  let wss : ℚ × ℚ × ℚ :=
    if track_spacing = 0 then
      if layer_is_all_power then
        let one_strap_pitch : ℚ := (track_width : ℚ) * layer.pitch
        let sw := layer.min_spacing_and_max_width_from_pitch one_strap_pitch
        (sw.2, sw.1, sw.1 / 2 + layer.offset)
      else
        layer.twwt track_width
    else
      let wss := layer.twt track_width
      let spacing : ℚ :=
        2 * wss.2.1 + ((track_spacing : ℚ) - 1) * layer.pitch + layer.min_width
      let spacing : ℚ := if pattern = "mesh" then pitch / 2 - wss.1 else spacing
      (wss.1, spacing, wss.2.2)
  let width := wss.1
  let spacing := wss.2.1
  let strap_start := wss.2.2
  let offset : ℚ := track_offset + (track_start : ℚ) * layer.pitch + strap_start
  let density : ℚ := (nets.length : ℚ) * width / pitch * 100
  { width := width
    spacing := spacing
    offset := offset
    pitch := pitch
    density := density
    densityWarn := decide (density > 85)
    assertOk := decide (width > 0) && decide (spacing > 0) }

/-- Embedding of `_get_by_tracks_track_pitch` (lines 1064-1085): assert
`0 < power_utilization ≤ 1` (`none` on assertion failure), count the consumed
tracks — excluding `track_spacing` under the `mesh` pattern — and round the
quotient by the utilization. -/
def get_by_tracks_track_pitch (track_width track_spacing : ℤ)
    (power_utilization : ℚ) (pattern : String) : Option ℤ :=
  if 0 < power_utilization ∧ power_utilization ≤ 1 then
    let consumed_tracks : ℤ :=
      if pattern = "mesh" then 2 * track_width
      else 2 * track_width + track_spacing
    some (pyRound ((consumed_tracks : ℚ) / power_utilization))
  else
    none

/-- One converter invocation prepared by the strap builder: the net pair, the
group offset and the group pitch (in tracks) passed to
`specify_power_straps_by_tracks`. -/
structure GroupCall where
  nets : List String
  group_offset : ℚ
  group_pitch : ℤ
  deriving DecidableEq, Repr

/-- Embedding of the weighted multi-domain expansion of
`specify_all_power_straps_by_tracks` (lines 810-818): iterate
`i ∈ range (sum power_weights)` and build `nets = [ground_net, power_nets[i]]`
with group offset `offset + track_offset + track_pitch*i*layer_pitch` and
group pitch `sum_weights * track_pitch`.  The Python indexing
`power_nets[i]` raises `IndexError` when `i ≥ len(power_nets)`; that failure
is the `none` result. -/
def expand_power_nets (ground_net : String) (power_nets : List String)
    (power_weights : List ℤ) (offset track_offset : ℚ) (track_pitch : ℤ)
    (layer_pitch : ℚ) : Option (List GroupCall) :=
  let sum_weights : ℕ := (power_weights.foldl (· + ·) 0).toNat
  (List.range sum_weights).mapM fun i =>
    (power_nets.get? i).map fun pn =>
      { nets := [ground_net, pn]
        group_offset := offset + track_offset +
          (track_pitch : ℚ) * (i : ℚ) * layer_pitch
        group_pitch := (sum_weights : ℤ) * track_pitch }

/-- The layer-ordering discipline of `specify_all_power_straps_by_tracks`
(lines 789-793), run over the layer list with `last` starting at the
bottom-via layer: `assert layer.index > last.index` (the assertion message is
`"Must build power straps bottom-up"`), then raise a `ValueError` naming both
layers when the directions coincide, then advance `last`. -/
def check_layer_order (last : Metal) : List Metal → Except String Unit
  | [] => Except.ok ()
  | layer :: rest =>
    if layer.index ≤ last.index then
      Except.error "Must build power straps bottom-up"
    else if last.direction = layer.direction then
      Except.error ("Layers " ++ last.name ++ " and " ++ layer.name ++
        " run in the same direction, but have no power straps between them.")
    else
      check_layer_order layer rest

/-- A hard-macro placement constraint, with the fields the conflict recorder
reads: master, instance path, lower-left position, optional width/height,
optional orientation, designated top connection layer, physical-only flag. -/
structure MacroInst where
  master : Option String
  path : String
  x : ℚ
  y : ℚ
  width : Option ℚ
  height : Option ℚ
  orientation : Option String
  top_layer : Option String
  create_physical : Option Bool

/-- A power-kind obstruction constraint: position, size and the layer set. -/
structure Obstruction where
  path : String
  x : ℚ
  y : ℚ
  width : ℚ
  height : ℚ
  layers : Option (List String)

/-- The structured content of the diagnostics `_get_power_straps_for_hardmacros`
logs: the bounds error, one obstruction-overlap error per overlapping power
obstruction, and the fit error (whose wording depends on the strict-abutment
flag). -/
inductive LogMsg where
  | bounds_error (path layer : String)
  | obstruction_error (path layer obs_path : String)
  | fit_error (path layer : String) (strict : Bool)
  deriving DecidableEq, Repr

/-- The dictionary appended to `_hardmacro_power_straps` for one qualifying
instance: identification plus width/spacing/group-pitch/offset quantized to
integer grid units. -/
structure HardmacroRecord where
  master : String
  top_layer : String
  path : String
  orientation : String
  layer : String
  direction : String
  net_order : List String
  width : ℤ
  spacing : ℤ
  group_pitch : ℤ
  offset : ℤ
  deriving DecidableEq, Repr

/-- Embedding of the per-instance body of `_get_power_straps_for_hardmacros`
(lines 860-949): the eligibility skips, the bounding-box check — written with
the same three sequential assignments to `oob` as the source, the first two of
which are dead because each is unconditionally overwritten —, the
obstruction-overlap errors, the offset translation into the macro's origin
(skipping redistribution layers), the fit check, and the appended quantized
record.  Returns the appended record (if any) and the logged diagnostics.
`pwr_obs` is the already-filtered list of power-kind obstructions. -/
def get_power_straps_for_hardmacros_one (get_metal : String → Metal) (dbu : ℚ)
    (check_abut : Bool) (abutment_macros : Option (List String)) (layer : Metal)
    (pitch width spacing offset : ℚ) (bbox : Option (List ℚ))
    (nets : List String) (pwr_obs : List Obstruction) (mac : MacroInst) :
    Option HardmacroRecord × List LogMsg :=
  match mac.master with
  | none => (none, [])
  | some master =>
    if (match abutment_macros with
        | some allowed => !(allowed.contains master)
        | none => false) then (none, [])
    else if mac.create_physical.getD false then (none, [])
    else match mac.top_layer with
    | none => (none, [])
    | some tl =>
      let top_idx := (get_metal tl).index
      if layer.index < top_idx ∨ layer.index > top_idx + 1 then (none, [])
      else
        let orientation := (mac.orientation.getD "r0").toLower
        let oob : Bool := false
        let oob : Bool :=
          match bbox with
          | none => oob
          | some bb =>
            let oob : Bool :=
              match mac.width, mac.height with
              | some w, some h =>
                let oob : Bool :=
                  if orientation = "r90" ∨ orientation = "r270" then
                    decide (mac.x + h < bb.getD 0 0) ||
                      decide (mac.y + h < bb.getD 1 0)
                  else oob
                decide (mac.x + w < bb.getD 0 0) ||
                  decide (mac.y + h < bb.getD 1 0)
              | _, _ => oob
            decide (mac.x > bb.getD 2 0) || decide (mac.y > bb.getD 3 0)
        if oob then (none, [LogMsg.bounds_error mac.path layer.name])
        else
          let check_layer_idx : ℤ := top_idx + (if check_abut then 0 else 1)
          let layer_pwr_obs := pwr_obs.filter fun o =>
            match o.layers with
            | some ls => ls.contains layer.name
            | none => false
          let obs_errors : List LogMsg :=
            if decide (layer.index = check_layer_idx) && !layer_pwr_obs.isEmpty then
              match mac.width, mac.height with
              | some w, some h =>
                let rot := orientation = "r90" ∨ orientation = "r270"
                let m_ll_x := mac.x
                let m_ll_y := mac.y
                let m_ur_x := if rot then mac.x + h else mac.x + w
                let m_ur_y := if rot then mac.y + w else mac.y + h
                (layer_pwr_obs.filter fun po =>
                  !(decide (m_ur_x ≤ po.x) ||
                    decide (po.x + po.width ≤ m_ll_x) ||
                    decide (m_ur_y ≤ po.y) ||
                    decide (po.y + po.height ≤ m_ll_y))).map fun po =>
                  LogMsg.obstruction_error mac.path layer.name po.path
              | _, _ => []
            else []
          let dir_offset : Option ℚ :=
            if layer.direction = "vertical" then
              some (decMod (offset - mac.x) pitch)
            else if layer.direction = "horizontal" then
              some (decMod (offset - mac.y) pitch)
            else none
          match dir_offset with
          | none => (none, obs_errors)
          | some offset_trans =>
            let last_edge : ℚ :=
              offset_trans + ((nets.length : ℚ) - 1) * (width + spacing) + width
            let fit_oob : Bool :=
              match mac.width, mac.height with
              | some w, some h =>
                let fit_oob : Bool := false
                let fit_oob : Bool :=
                  if layer.direction = "vertical" then
                    (decide (orientation = "r90" ∨ orientation = "r270") &&
                      decide (last_edge > h)) || decide (last_edge > w)
                  else fit_oob
                if layer.direction = "horizontal" then
                  (decide (orientation = "r90" ∨ orientation = "r270") &&
                    decide (last_edge > w)) || decide (last_edge > h)
                else fit_oob
              | _, _ => false
            let fit_errors : List LogMsg :=
              if fit_oob && decide (layer.index = check_layer_idx) then
                [LogMsg.fit_error mac.path layer.name check_abut]
              else []
            (some { master := master
                    top_layer := tl
                    path := mac.path
                    orientation := orientation
                    layer := layer.name
                    direction := layer.direction
                    net_order := nets
                    width := ratTrunc (width / dbu)
                    spacing := ratTrunc (spacing / dbu)
                    group_pitch := ratTrunc (pitch / dbu)
                    offset := ratTrunc (offset_trans / dbu) },
             obs_errors ++ fit_errors)

/-- The orientations the aggregator considers abuttable for each routing
direction, the `valid_orients` dictionary of `_dump_power_straps_for_hardmacros`.
Records only exist for vertical/horizontal layers (redistribution layers are
skipped before any record is appended), so the other-direction case is
unreachable there. -/
def valid_orients (direction : String) : List String :=
  if direction = "vertical" then ["r0", "mx"]
  else if direction = "horizontal" then ["r0", "my"]
  else []

/-- `statistics.mode` as the aggregator uses it: the first value encountered
in the list among those with the maximal number of occurrences (CPython ≥ 3.8
behaviour).  The aggregator only calls it on nonempty lists; the empty case
returns a junk value. -/
def firstMode (l : List ℤ) : ℤ :=
  match l with
  | [] => 0
  | x :: xs => xs.foldl (fun best y => if l.count y > l.count best then y else best) x

/-- One group descriptor of the `power_straps.json` report.  The `offset`
field is absent (`none`) on the above-layer descriptor, which only carries the
`copy_fields` parameters. -/
structure GroupDesc where
  layer : String
  direction : String
  net_order : List String
  width : ℤ
  spacing : ℤ
  group_pitch : ℤ
  offset : Option ℤ
  inst_paths : List String
  inst_orientations : List String
  deriving DecidableEq, Repr

/-- The `copy_fields` projection of `_dump_power_straps_for_hardmacros`:
`layer`, `direction`, `net_order`, `width`, `spacing`, `group_pitch` taken
from one record, the remaining descriptor fields yet unset. -/
def copy_fields_desc (r : HardmacroRecord) : GroupDesc :=
  { layer := r.layer
    direction := r.direction
    net_order := r.net_order
    width := r.width
    spacing := r.spacing
    group_pitch := r.group_pitch
    offset := none
    inst_paths := []
    inst_orientations := [] }

instance : Inhabited HardmacroRecord :=
  ⟨{ master := "", top_layer := "", path := "", orientation := "", layer := ""
     direction := "", net_order := [], width := 0, spacing := 0
     group_pitch := 0, offset := 0 }⟩

/-- The `while len(abut_insts) + len(bad_orient_insts) > 0` loop of
`_dump_power_straps_for_hardmacros` (lines 999-1032), written with explicit
fuel (each iteration extracts at least one record, so fuel equal to the total
record count suffices).  Returns the report entries for one master and the
paths recorded as misaligned (every iteration past the first). -/
def extract_descriptors (master : String) (above_desc : Option GroupDesc) :
    ℕ → List HardmacroRecord → List HardmacroRecord → ℕ →
    List (String × List GroupDesc) × List String
  | 0, _, _, _ => ([], [])
  | fuel + 1, abut_insts, bad_orient_insts, variant_cnt =>
    if abut_insts.length + bad_orient_insts.length = 0 then ([], [])
    else
      let step : ℤ × List HardmacroRecord × List HardmacroRecord ×
          List HardmacroRecord :=
        if abut_insts.length > 0 then
          let mo := firstMode (abut_insts.map (·.offset))
          (mo, abut_insts.filter (fun m => decide (m.offset = mo)),
           abut_insts.filter (fun m => decide (m.offset ≠ mo)), bad_orient_insts)
        else
          let mo := firstMode (bad_orient_insts.map (·.offset))
          (mo, bad_orient_insts.filter (fun m => decide (m.offset = mo)),
           abut_insts, bad_orient_insts.filter (fun m => decide (m.offset ≠ mo)))
      let max_count_offset := step.1
      let insts := step.2.1
      let master_module :=
        if variant_cnt > 0 then master ++ "_" ++ toString variant_cnt else master
      let mis_here : List String :=
        if variant_cnt > 0 then insts.map (·.path) else []
      let abut_desc : GroupDesc :=
        match insts with
        | [] =>
          { copy_fields_desc default with offset := some max_count_offset }
        | first :: _ =>
          { copy_fields_desc first with
              offset := some max_count_offset
              inst_paths := insts.map (·.path)
              inst_orientations := insts.map (·.orientation) }
      let entry : String × List GroupDesc :=
        match above_desc with
        | some ad =>
          (master_module,
           [abut_desc,
            { ad with
                inst_paths := insts.map (·.path)
                inst_orientations := insts.map (·.orientation) }])
        | none => (master_module, [abut_desc])
      let rest := extract_descriptors master above_desc fuel step.2.2.1 step.2.2.2
        (variant_cnt + 1)
      (entry :: rest.1, mis_here ++ rest.2)

/-- The per-master processing of `_dump_power_straps_for_hardmacros`
(lines 976-1032): top-layer-conflict detection, the above-layer descriptor
template, the same-layer warning under non-strict checking, the
abut / bad-orientation partition, and the extraction loop. -/
structure MasterResult where
  entries : List (String × List GroupDesc)
  misaligned_paths : List String
  top_layer_conflict : Bool
  same_layer_warn : Bool
  deriving Repr

/-- Process all records of one master, as the body of the `for master in
masters` loop does. -/
def dump_one_master (check_abut : Bool) (records : List HardmacroRecord)
    (master : String) : MasterResult :=
  let insts := records.filter (fun m => decide (m.master = master))
  let top_layer_conflict := decide ((insts.map (·.top_layer)).dedup.length > 1)
  let above_insts := insts.filter (fun m => decide (m.top_layer ≠ m.layer))
  let above_desc : Option GroupDesc := above_insts.head?.map copy_fields_desc
  let same_layer_warn :=
    above_insts.isEmpty && !insts.isEmpty && !check_abut
  let abut_insts := insts.filter fun m =>
    decide (m.top_layer = m.layer) && (valid_orients m.direction).contains m.orientation
  let bad_orient_insts := insts.filter fun m =>
    decide (m.top_layer = m.layer) && !(valid_orients m.direction).contains m.orientation
  let res := extract_descriptors master above_desc
    (abut_insts.length + bad_orient_insts.length) abut_insts bad_orient_insts 0
  { entries := res.1
    misaligned_paths := res.2
    top_layer_conflict := top_layer_conflict
    same_layer_warn := same_layer_warn }

/-- The outcome of `_dump_power_straps_for_hardmacros`: the serialized report
(`power_straps.json` content), the misaligned-instance dictionary, whether the
aggregate abutment error fires, and the accumulator as the function leaves
it.  The Python function reads `self._hardmacro_power_straps` and contains no
statement that clears or reassigns it, so `accumulator_after` is the input
list unchanged. -/
structure DumpResult where
  output : List (String × List GroupDesc)
  misaligned_insts : List (String × List String)
  aggregate_error : Bool
  accumulator_after : List HardmacroRecord
  deriving Repr

/-- Embedding of `_dump_power_straps_for_hardmacros` (lines 951-1043).
CPython iterates `set(masters)` in an unspecified hash order; this embedding
fixes the order `List.dedup` yields, which is immaterial to the claims
settled below (they involve a single master). -/
def dump_power_straps_for_hardmacros (check_abut : Bool)
    (acc : List HardmacroRecord) : DumpResult :=
  let masters := (acc.map (·.master)).dedup
  let output := masters.flatMap fun m =>
    (dump_one_master check_abut acc m).entries
  let misaligned := (masters.map fun m =>
    (m, (dump_one_master check_abut acc m).misaligned_paths)).filter
    fun p => !p.2.isEmpty
  { output := output
    misaligned_insts := misaligned
    aggregate_error := check_abut && !misaligned.isEmpty
    accumulator_after := acc }

/-- Records for the abutment-majority scenario: instances of master `X` whose
top layer `M5` equals the strap layer, in `r0` orientation, at a given
quantized group offset. -/
def sampleRecord (p : String) (off : ℤ) : HardmacroRecord :=
  { master := "X"
    top_layer := "M5"
    path := p
    orientation := "r0"
    layer := "M5"
    direction := "vertical"
    net_order := ["G", "A"]
    width := 4
    spacing := 2
    group_pitch := 60
    offset := off }

/-- C1: the Strap Builder's weighted expansion is claimed to turn ground `G`,
power nets `[A, B]` and weights `[2, 1]` into the net pairs
`[G,A],[G,A],[G,B]` — the striping the source's own comment (`2:1 : A A B`)
and docstring promise.  The code instead evaluates `power_nets[i]` for
`i ∈ range (sum weights)` and raises `IndexError` at `i = 2` (`none` here),
so no pair list is produced at all; with weights `[1, 1]` the loop does
complete, producing one pair per net with the claimed sub-offsets and the
sub-pitch `sum(weights) × track_pitch`. -/
theorem expand_power_nets_index_error_on_weights_two_one :
    expand_power_nets "G" ["A", "B"] [2, 1] 0 0 1 1 = none ∧
    expand_power_nets "G" ["A", "B"] [1, 1] 0 0 1 1 =
      some [{ nets := ["G", "A"], group_offset := 0, group_pitch := 2 },
            { nets := ["G", "B"], group_offset := 1, group_pitch := 2 }] := by
  constructor <;>
    simp [expand_power_nets, List.range, List.range.loop, List.mapM,
      List.mapM.loop]

/-- C5: a layer passes the Strap Builder's ordering discipline exactly when
its stacking index strictly exceeds the previously resolved layer's and its
routing direction differs, chained along the whole list; an out-of-order
layer aborts with the bottom-up assertion, and a same-direction layer aborts
with the error naming both offending layers. -/
theorem check_layer_order_spec :
    (∀ (last : Metal) (layers : List Metal),
      check_layer_order last layers = Except.ok () ↔
        List.Chain (fun a b => a.index < b.index ∧ a.direction ≠ b.direction)
          last layers) ∧
    (∀ (last layer : Metal) (rest : List Metal),
      layer.index ≤ last.index →
      check_layer_order last (layer :: rest) =
        Except.error "Must build power straps bottom-up") ∧
    (∀ (last layer : Metal) (rest : List Metal),
      last.index < layer.index →
      last.direction = layer.direction →
      check_layer_order last (layer :: rest) =
        Except.error ("Layers " ++ last.name ++ " and " ++ layer.name ++
          " run in the same direction, but have no power straps between them.")) := by
  refine ⟨?_, ?_, ?_⟩
  · intro last layers
    induction layers generalizing last with
    | nil => simp [check_layer_order]
    | cons layer rest ih =>
      constructor
      · intro h
        rw [check_layer_order] at h
        by_cases hidx : layer.index ≤ last.index
        · simp [hidx] at h
        · by_cases hdir : last.direction = layer.direction
          · simp [hidx, hdir] at h
          · exact List.Chain.cons ⟨lt_of_not_le hidx, hdir⟩ ((ih layer).mp (by
              simpa [check_layer_order, hidx, hdir] using h))
      · intro h
        cases h with
        | cons hpair hchain =>
          rw [check_layer_order]
          simp [not_le.mpr hpair.1, hpair.2, (ih _).mpr hchain]
  · intro last layer rest h
    rw [check_layer_order]
    simp [h]
  · intro last layer rest hidx hdir
    rw [check_layer_order]
    simp [not_le.mpr hidx, hdir]

/-- C5 witness: a concrete bottom-up pass, a concrete out-of-order abort, and
a concrete same-direction abort whose message names both layers. -/
theorem check_layer_order_spec_witness :
    check_layer_order
      { name := "M1", index := 1, direction := "horizontal", pitch := 1,
        offset := 0, min_width := 1, grid_unit := 1, twt := fun _ => (1, 1, 0),
        twwt := fun _ => (1, 1, 0),
        min_spacing_and_max_width_from_pitch := fun p => (p / 2, p / 2) }
      [{ name := "M2", index := 2, direction := "vertical", pitch := 1,
         offset := 0, min_width := 1, grid_unit := 1, twt := fun _ => (1, 1, 0),
         twwt := fun _ => (1, 1, 0),
         min_spacing_and_max_width_from_pitch := fun p => (p / 2, p / 2) }] =
      Except.ok () ∧
    check_layer_order
      { name := "M2", index := 2, direction := "vertical", pitch := 1,
        offset := 0, min_width := 1, grid_unit := 1, twt := fun _ => (1, 1, 0),
        twwt := fun _ => (1, 1, 0),
        min_spacing_and_max_width_from_pitch := fun p => (p / 2, p / 2) }
      [{ name := "M1", index := 1, direction := "horizontal", pitch := 1,
         offset := 0, min_width := 1, grid_unit := 1, twt := fun _ => (1, 1, 0),
         twwt := fun _ => (1, 1, 0),
         min_spacing_and_max_width_from_pitch := fun p => (p / 2, p / 2) }] =
      Except.error "Must build power straps bottom-up" ∧
    check_layer_order
      { name := "M1", index := 1, direction := "horizontal", pitch := 1,
        offset := 0, min_width := 1, grid_unit := 1, twt := fun _ => (1, 1, 0),
        twwt := fun _ => (1, 1, 0),
        min_spacing_and_max_width_from_pitch := fun p => (p / 2, p / 2) }
      [{ name := "M3", index := 3, direction := "horizontal", pitch := 1,
         offset := 0, min_width := 1, grid_unit := 1, twt := fun _ => (1, 1, 0),
         twwt := fun _ => (1, 1, 0),
         min_spacing_and_max_width_from_pitch := fun p => (p / 2, p / 2) }] =
      Except.error
        "Layers M1 and M3 run in the same direction, but have no power straps between them." := by
  refine ⟨(check_layer_order_spec.1 _ _).mpr ?_,
    check_layer_order_spec.2.1 _ _ _ (by norm_num),
    check_layer_order_spec.2.2 _ _ _ (by norm_num) (by rfl)⟩
  exact List.Chain.cons ⟨by norm_num, by decide⟩ List.Chain.nil

/-- C6: the Converter computes `density = nets_count × width / pitch × 100`
with `pitch = track_pitch × layer.pitch` and warns exactly when the density
exceeds 85; a two-net group of width 21 at group pitch 100 sits at 42% with
no warning, and width 45 at the same pitch sits at 90% with the warning. -/
theorem density_warning_spec :
    (∀ (layer : Metal) (tp tw ts tst : ℤ) (toff : ℚ) (nets : List String)
      (ap : Bool) (pat : String),
      (specify_power_straps_by_tracks layer tp tw ts tst toff nets ap pat).densityWarn
        = decide ((nets.length : ℚ) *
            (specify_power_straps_by_tracks layer tp tw ts tst toff nets ap pat).width /
            ((tp : ℚ) * layer.pitch) * 100 > 85)) ∧
    (specify_power_straps_by_tracks
      { name := "M4", index := 4, direction := "horizontal", pitch := 10,
        offset := 0, min_width := 1, grid_unit := 1,
        twt := fun _ => (21, 1, 0), twwt := fun _ => (21, 1, 0),
        min_spacing_and_max_width_from_pitch := fun p => (p / 2, p / 2) }
      10 2 1 0 0 ["G", "A"] false "none").density = 42 ∧
    (specify_power_straps_by_tracks
      { name := "M4", index := 4, direction := "horizontal", pitch := 10,
        offset := 0, min_width := 1, grid_unit := 1,
        twt := fun _ => (21, 1, 0), twwt := fun _ => (21, 1, 0),
        min_spacing_and_max_width_from_pitch := fun p => (p / 2, p / 2) }
      10 2 1 0 0 ["G", "A"] false "none").densityWarn = false ∧
    (specify_power_straps_by_tracks
      { name := "M4", index := 4, direction := "horizontal", pitch := 10,
        offset := 0, min_width := 1, grid_unit := 1,
        twt := fun _ => (45, 1, 0), twwt := fun _ => (45, 1, 0),
        min_spacing_and_max_width_from_pitch := fun p => (p / 2, p / 2) }
      10 2 1 0 0 ["G", "A"] false "none").density = 90 ∧
    (specify_power_straps_by_tracks
      { name := "M4", index := 4, direction := "horizontal", pitch := 10,
        offset := 0, min_width := 1, grid_unit := 1,
        twt := fun _ => (45, 1, 0), twwt := fun _ => (45, 1, 0),
        min_spacing_and_max_width_from_pitch := fun p => (p / 2, p / 2) }
      10 2 1 0 0 ["G", "A"] false "none").densityWarn = true := by
  refine ⟨fun layer tp tw ts tst toff nets ap pat => rfl, ?_, ?_, ?_, ?_⟩ <;>
    simp [specify_power_straps_by_tracks] <;> norm_num

/-- C10: the per-layer group track pitch is computed, not read: it is the
banker's rounding of `(2×track_width + track_spacing) / power_utilization`,
`track_spacing` dropped under the `mesh` pattern, and the generation asserts
`0 < power_utilization ≤ 1`, failing otherwise. -/
theorem get_by_tracks_track_pitch_spec :
    ∀ (tw ts : ℤ) (u : ℚ) (pat : String),
      (0 < u → u ≤ 1 →
        get_by_tracks_track_pitch tw ts u pat =
          some (pyRound
            (((2 * tw + (if pat = "mesh" then 0 else ts) : ℤ) : ℚ) / u))) ∧
      (¬(0 < u ∧ u ≤ 1) → get_by_tracks_track_pitch tw ts u pat = none) := by
  intro tw ts u pat
  constructor
  · intro h1 h2
    rw [get_by_tracks_track_pitch, if_pos ⟨h1, h2⟩]
    by_cases hm : pat = "mesh" <;> simp [hm]
  · intro h
    rw [get_by_tracks_track_pitch, if_neg h]

/-- C10 witness: a passing utilization yields the rounded derived pitch and a
utilization above one fails the assertion. -/
theorem get_by_tracks_track_pitch_spec_witness :
    get_by_tracks_track_pitch 4 1 (3 / 4) "none" = some 12 ∧
    get_by_tracks_track_pitch 4 1 2 "none" = none := by
  constructor
  · rw [(get_by_tracks_track_pitch_spec 4 1 (3 / 4) "none").1 (by norm_num)
      (by norm_num)]
    have h : ((2 * 4 + (if ("none" : String) = "mesh" then 0 else 1) : ℤ) : ℚ) /
        (3 / 4) = 12 := by
      rw [if_neg (by decide : ¬("none" : String) = "mesh")]
      norm_num
    rw [h]
    simp [pyRound]
  · exact (get_by_tracks_track_pitch_spec 4 1 2 "none").2 (by norm_num)

/-- C7: whenever the (possibly mesh-forced) track spacing is positive, the
Converter takes `(width, spacing, start)` from the TWT solver and resolves
`spacing = 2×solver_spacing + (track_spacing−1)×layer.pitch + layer.min_width`,
overridden to `pitch/2 − width` with `pitch = track_pitch × layer.pitch`
under the `mesh` pattern (which forces `track_spacing = 1` for sizing), and
`offset = track_offset + track_start×layer.pitch + solver_start`. -/
theorem twt_spacing_formula (layer : Metal) (tp tw ts tst : ℤ) (toff : ℚ)
    (nets : List String) (ap : Bool) (pat : String)
    (h : pat = "mesh" ∨ 0 < ts) :
    (specify_power_straps_by_tracks layer tp tw ts tst toff nets ap pat).width =
      (layer.twt tw).1 ∧
    (specify_power_straps_by_tracks layer tp tw ts tst toff nets ap pat).spacing =
      (if pat = "mesh" then (tp : ℚ) * layer.pitch / 2 - (layer.twt tw).1
       else 2 * (layer.twt tw).2.1 + ((ts : ℚ) - 1) * layer.pitch +
         layer.min_width) ∧
    (specify_power_straps_by_tracks layer tp tw ts tst toff nets ap pat).offset =
      toff + (tst : ℚ) * layer.pitch + (layer.twt tw).2.2 := by
  by_cases hm : pat = "mesh"
  · simp [specify_power_straps_by_tracks, hm]
  · have hts : ¬ts = 0 := by
      rcases h with h | h
      · exact absurd h hm
      · omega
    simp [specify_power_straps_by_tracks, hm, hts]

/-- C7 witness: a non-mesh positive track spacing on a concrete layer resolves
the TWT width and the composed spacing and offset. -/
theorem twt_spacing_formula_witness :
    (specify_power_straps_by_tracks
      { name := "M4", index := 4, direction := "horizontal", pitch := 10,
        offset := 0, min_width := 1, grid_unit := 1,
        twt := fun _ => (21, 2, 3), twwt := fun _ => (21, 2, 3),
        min_spacing_and_max_width_from_pitch := fun p => (p / 2, p / 2) }
      10 2 2 1 5 ["G", "A"] false "none").width = 21 ∧
    (specify_power_straps_by_tracks
      { name := "M4", index := 4, direction := "horizontal", pitch := 10,
        offset := 0, min_width := 1, grid_unit := 1,
        twt := fun _ => (21, 2, 3), twwt := fun _ => (21, 2, 3),
        min_spacing_and_max_width_from_pitch := fun p => (p / 2, p / 2) }
      10 2 2 1 5 ["G", "A"] false "none").spacing = 15 ∧
    (specify_power_straps_by_tracks
      { name := "M4", index := 4, direction := "horizontal", pitch := 10,
        offset := 0, min_width := 1, grid_unit := 1,
        twt := fun _ => (21, 2, 3), twwt := fun _ => (21, 2, 3),
        min_spacing_and_max_width_from_pitch := fun p => (p / 2, p / 2) }
      10 2 2 1 5 ["G", "A"] false "none").offset = 18 := by
  obtain ⟨h1, h2, h3⟩ := twt_spacing_formula
    { name := "M4", index := 4, direction := "horizontal", pitch := 10,
      offset := 0, min_width := 1, grid_unit := 1,
      twt := fun _ => (21, 2, 3), twwt := fun _ => (21, 2, 3),
      min_spacing_and_max_width_from_pitch := fun p => (p / 2, p / 2) }
    10 2 2 1 5 ["G", "A"] false "none" (Or.inr (by norm_num))
  refine ⟨by rw [h1], ?_, ?_⟩
  · rw [h2, if_neg (by decide : ¬("none" : String) = "mesh")]
    norm_num
  · rw [h3]
    norm_num

/-- C8: on a zero-track-spacing all-power layer the Converter's resolved width
and spacing sum exactly to one strap pitch `track_width × layer.pitch`,
provided the stackup's `min_spacing_and_max_width_from_pitch` solver returns a
spacing/width pair summing to its pitch argument. -/
theorem all_power_width_spacing_sum (layer : Metal) (tp tw tst : ℤ)
    (toff : ℚ) (nets : List String) (pat : String) (hm : pat ≠ "mesh")
    (hsolver : ∀ p, (layer.min_spacing_and_max_width_from_pitch p).1 +
      (layer.min_spacing_and_max_width_from_pitch p).2 = p) :
    (specify_power_straps_by_tracks layer tp tw 0 tst toff nets true pat).width +
      (specify_power_straps_by_tracks layer tp tw 0 tst toff nets true pat).spacing =
      (tw : ℚ) * layer.pitch := by
  have h := hsolver ((tw : ℚ) * layer.pitch)
  simp [specify_power_straps_by_tracks, hm]
  linarith [h]

/-- C8 witness: a concrete layer whose solver splits the pitch one-third /
two-thirds yields width + spacing equal to one strap pitch, 40. -/
theorem all_power_width_spacing_sum_witness :
    (specify_power_straps_by_tracks
      { name := "M6", index := 6, direction := "vertical", pitch := 10,
        offset := 0, min_width := 1, grid_unit := 1,
        twt := fun _ => (1, 1, 0), twwt := fun _ => (1, 1, 0),
        min_spacing_and_max_width_from_pitch := fun p => (p / 3, 2 * p / 3) }
      10 4 0 0 0 ["G", "A"] true "none").width +
    (specify_power_straps_by_tracks
      { name := "M6", index := 6, direction := "vertical", pitch := 10,
        offset := 0, min_width := 1, grid_unit := 1,
        twt := fun _ => (1, 1, 0), twwt := fun _ => (1, 1, 0),
        min_spacing_and_max_width_from_pitch := fun p => (p / 3, 2 * p / 3) }
      10 4 0 0 0 ["G", "A"] true "none").spacing = 40 := by
  have h := all_power_width_spacing_sum
    { name := "M6", index := 6, direction := "vertical", pitch := 10,
      offset := 0, min_width := 1, grid_unit := 1,
      twt := fun _ => (1, 1, 0), twwt := fun _ => (1, 1, 0),
      min_spacing_and_max_width_from_pitch := fun p => (p / 3, 2 * p / 3) }
    10 4 0 0 ["G", "A"] "none" (by decide) (fun p => by ring)
  rw [h]
  norm_num

/-- C2: `_dump_power_straps_for_hardmacros` serializes the report but contains
no statement clearing `_hardmacro_power_straps`; the accumulator — a class
attribute shared by every invocation in the process — still holds the run's
records afterwards, so an independent later generation run appending to the
same list reports the first run's master (`X`) alongside its own (`Y`). -/
theorem dump_leaves_accumulator_and_leaks_across_runs :
    (dump_power_straps_for_hardmacros true
      [sampleRecord "run1/inst" 10]).accumulator_after =
      [sampleRecord "run1/inst" 10] ∧
    ((dump_power_straps_for_hardmacros true
      [sampleRecord "run1/inst" 10]).accumulator_after).isEmpty = false ∧
    ((dump_power_straps_for_hardmacros true
      ([sampleRecord "run1/inst" 10] ++
       [{ sampleRecord "run2/inst" 0 with master := "Y" }])).output.map
      Prod.fst).contains "X" = true := by
  refine ⟨rfl, by with_unfolding_all rfl, by with_unfolding_all rfl⟩

/-- C4: with five instances of master `X` recorded at offset 10 and three at
offset 20, all in valid orientation on a layer equal to their top layer, the
report holds exactly the descriptor `X` with the five majority paths at
offset 10 and the descriptor `X_1` with the three paths at offset 20, and
under strict abutment checking the single aggregate error names `X` with
exactly those three offending paths. -/
theorem abutment_majority_example :
    (dump_power_straps_for_hardmacros true
      [sampleRecord "a" 10, sampleRecord "b" 10, sampleRecord "c" 10,
       sampleRecord "d" 10, sampleRecord "e" 10, sampleRecord "f" 20,
       sampleRecord "g" 20, sampleRecord "h" 20]).output =
      [("X", [{ layer := "M5", direction := "vertical",
                net_order := ["G", "A"], width := 4, spacing := 2,
                group_pitch := 60, offset := some 10,
                inst_paths := ["a", "b", "c", "d", "e"],
                inst_orientations := ["r0", "r0", "r0", "r0", "r0"] }]),
       ("X_1", [{ layer := "M5", direction := "vertical",
                  net_order := ["G", "A"], width := 4, spacing := 2,
                  group_pitch := 60, offset := some 20,
                  inst_paths := ["f", "g", "h"],
                  inst_orientations := ["r0", "r0", "r0"] }])] ∧
    (dump_power_straps_for_hardmacros true
      [sampleRecord "a" 10, sampleRecord "b" 10, sampleRecord "c" 10,
       sampleRecord "d" 10, sampleRecord "e" 10, sampleRecord "f" 20,
       sampleRecord "g" 20, sampleRecord "h" 20]).misaligned_insts =
      [("X", ["f", "g", "h"])] ∧
    (dump_power_straps_for_hardmacros true
      [sampleRecord "a" 10, sampleRecord "b" 10, sampleRecord "c" 10,
       sampleRecord "d" 10, sampleRecord "e" 10, sampleRecord "f" 20,
       sampleRecord "g" 20, sampleRecord "h" 20]).aggregate_error = true := by
  refine ⟨?_, ?_, ?_⟩ <;> with_unfolding_all rfl

/-- The strap layer for the hardmacro scenarios: vertical `M5` at index 5. -/
def bbox_layer : Metal :=
  { name := "M5", index := 5, direction := "vertical", pitch := 1, offset := 0,
    min_width := 1, grid_unit := 1, twt := fun _ => (1, 1, 0),
    twwt := fun _ => (1, 1, 0),
    min_spacing_and_max_width_from_pitch := fun p => (p / 2, p / 2) }

/-- A hard macro with extent `[0,10] × [0,10]`, entirely to the left of the
bounding box with corners `(50, 0)` and `(200, 200)`. -/
def left_inst : MacroInst :=
  { master := some "X", path := "core/left", x := 0, y := 0,
    width := some 10, height := some 10, orientation := some "r0",
    top_layer := some "M5", create_physical := none }

/-- C3: the bounds check is claimed to skip (with one placement warning) any
instance whose rotation-adjusted extent falls entirely outside the supplied
bounding box.  In the code the first two `oob` assignments are dead — each is
unconditionally overwritten — so only `x > bbox[2] or y > bbox[3]` survives:
for a macro entirely to the left of the box (its right edge `x + width = 10`
left of the box edge 50) no skip happens, a record is appended, and no
diagnostic at all is logged. -/
theorem bounds_dead_code_keeps_out_of_bounds_macro :
    left_inst.x + left_inst.width.getD 0 < (50 : ℚ) ∧
    ((get_power_straps_for_hardmacros_one (fun _ => bbox_layer) 1 true none
      bbox_layer 10 1 1 0 (some [50, 0, 200, 200]) ["G", "A"] []
      left_inst).1).isSome = true ∧
    (get_power_straps_for_hardmacros_one (fun _ => bbox_layer) 1 true none
      bbox_layer 10 1 1 0 (some [50, 0, 200, 200]) ["G", "A"] []
      left_inst).2 = [] := by
  refine ⟨by norm_num [left_inst], ?_, ?_⟩ <;> with_unfolding_all rfl

/-- A redistribution-direction strap layer at index 6, one above the `M5` top
layer of `left_inst`. -/
def rdl_layer : Metal :=
  { name := "RDL", index := 6, direction := "redistribution", pitch := 1,
    offset := 0, min_width := 1, grid_unit := 1, twt := fun _ => (1, 1, 0),
    twwt := fun _ => (1, 1, 0),
    min_spacing_and_max_width_from_pitch := fun p => (p / 2, p / 2) }

/-- C9 counterexample: an instance that passes every eligibility condition of
the claim (master set, no allow-list, not physical-only, top layer set, strap
layer index within `{top, top+1}`) and is not skipped by the bounds check
(no bounding box is supplied), yet no record is appended, because the strap
layer runs in the redistribution direction and the recorder hits `continue`
before the append. -/
theorem redistribution_layer_drops_eligible_record :
    left_inst.master.isSome = true ∧
    left_inst.create_physical.getD false = false ∧
    left_inst.top_layer = some "M5" ∧
    bbox_layer.index ≤ rdl_layer.index ∧
    rdl_layer.index ≤ bbox_layer.index + 1 ∧
    (get_power_straps_for_hardmacros_one (fun _ => bbox_layer) 1 true none
      rdl_layer 10 1 1 0 none ["G", "A"] [] left_inst).1 = none := by
  refine ⟨rfl, rfl, rfl, by decide, by decide, by with_unfolding_all rfl⟩

/-- C9 (amended): every instance that passes eligibility (master set, in the
allow-list when configured, not physical-only, top layer set with the strap
layer's index in `{top, top+1}`), is not skipped by the bounds check, and
sits on a vertical or horizontal strap layer has exactly one quantized record
appended, regardless of any obstruction-overlap or fit diagnostics logged.
The direction hypothesis is forced: on a redistribution-direction layer the
recorder hits `continue` and skips the instance without a record. -/
theorem eligible_macro_always_recorded (get_metal : String → Metal) (dbu : ℚ)
    (check_abut : Bool) (ams : Option (List String)) (layer : Metal)
    (pitch width spacing offset : ℚ) (bbox : Option (List ℚ))
    (nets : List String) (pwr_obs : List Obstruction) (mac : MacroInst)
    (master tl : String)
    (hmaster : mac.master = some master)
    (hallow : (match ams with
      | some allowed => !(allowed.contains master)
      | none => false) = false)
    (hphys : mac.create_physical.getD false = false)
    (htl : mac.top_layer = some tl)
    (hlo : (get_metal tl).index ≤ layer.index)
    (hhi : layer.index ≤ (get_metal tl).index + 1)
    (hbounds : (match bbox with
      | none => false
      | some bb => decide (mac.x > bb.getD 2 0) ||
          decide (mac.y > bb.getD 3 0)) = false)
    (hdir : layer.direction = "vertical" ∨ layer.direction = "horizontal") :
    ((get_power_straps_for_hardmacros_one get_metal dbu check_abut ams layer pitch
      width spacing offset bbox nets pwr_obs mac).1).isSome = true := by
  have h1 : ¬(layer.index < (get_metal tl).index) := not_lt.mpr hlo
  have h2 : ¬(layer.index > (get_metal tl).index + 1) := not_lt.mpr hhi
  simp at hallow hbounds
  rcases hdir with hdir | hdir <;>
    simp [get_power_straps_for_hardmacros_one, hmaster, hallow, hphys, htl, h1, h2,
      hbounds, hdir]

/-- C9 witness: a concrete in-box instance on the vertical `M5` layer is
recorded. -/
theorem eligible_macro_always_recorded_witness :
    ((get_power_straps_for_hardmacros_one (fun _ => bbox_layer) 1 true none
      bbox_layer 10 1 1 0 (some [50, 0, 200, 200]) ["G", "A"] []
      { master := some "X", path := "core/in", x := 60, y := 60,
        width := some 10, height := some 10, orientation := some "r0",
        top_layer := some "M5", create_physical := none }).1).isSome = true := by
  exact eligible_macro_always_recorded (fun _ => bbox_layer) 1 true none
    bbox_layer 10 1 1 0 (some [50, 0, 200, 200]) ["G", "A"] [] _ "X" "M5"
    rfl rfl rfl rfl (by decide) (by decide) (by with_unfolding_all rfl)
    (Or.inl rfl)
